import Mathlib

/-!
Verification of the mangadex-library-exporter repository (src/main.py and
src/main2.py) against its natural-language specification.

The Python programs are shallowly embedded: dictionaries become association
lists with last-binding-wins lookup (`pyDictGet`), Python truthiness of
optional strings becomes `optTruthy`, numbers parsed from decimal strings
become `ℚ`, and the HTTP boundary becomes explicit oracles (`Api`,
`Nat → HttpOutcome`) passed to the embedded functions.
-/

namespace MDex

/-- Python truthiness of an optional string value (`None` and `""` are falsy,
any non-empty string is truthy).  Used for `if al_id:`, `if not mal_id:`,
`if not reading_status:` and similar tests in the source. -/
def optTruthy : Option String → Bool
  | none => false
  | some s => !s.isEmpty

/-- Lookup in a Python dict literal given as its (key, value) insertion
sequence: a later binding of the same key overwrites an earlier one, so the
fold keeps the last match.  `none` models a missing key. -/
def pyDictGet (kvs : List (String × String)) (k : String) : Option String :=
  kvs.foldl (fun acc p => if p.1 == k then some p.2 else acc) none

/-- Python `int()` applied to a non-negative or negative rational: truncation
toward zero, as `int(float(x))` behaves in the source. -/
def pyInt (q : ℚ) : Int :=
  Int.tdiv q.num q.den

/-- Decimal digit parsing for `pyParseInt`: `none` unless the character
list is non-empty and all digits. -/
def digitsToNat : List Char → Option Nat
  | [] => none
  | l =>
    l.foldl
      (fun acc c =>
        match acc with
        | none => none
        | some n => if c.isDigit then some (n * 10 + (c.toNat - 48)) else none)
      (some 0)

/-- Python `int()` on a string: an optional sign followed by decimal
digits; anything else raises, modelled as `none`. -/
def pyParseInt (s : String) : Option Int :=
  match s.data with
  | '-' :: rest => (digitsToNat rest).map fun n => -(n : Int)
  | '+' :: rest => (digitsToNat rest).map fun n => (n : Int)
  | l => (digitsToNat l).map fun n => (n : Int)

/-- Python `max(x :: l, key := f)`: scans left to right and keeps the current
element unless a later element has a strictly greater key, so the first
element with the maximal key is returned. -/
def pyMaxBy {α : Type} (f : α → ℚ) (x : α) : List α → α
  | [] => x
  | y :: ys => pyMaxBy f (if f x < f y then y else x) ys

/-- The value of the Python `links` field of a manga object: either not a
dict (absent, or e.g. the empty list the API returns for no links — the
source guards every access with `isinstance(links, dict)`), or a dict from
which only the keys relevant to the program (`al`, `mal`) are read. -/
inductive Links where
  | nonDict : Links
  | dict (al : Option String) (mal : Option String) : Links
deriving DecidableEq

/-- `links.get('al') if isinstance(links, dict) else None`. -/
def Links.getAl : Links → Option String
  | .nonDict => none
  | .dict al _ => al

/-- `links.get('mal') if isinstance(links, dict) else None`. -/
def Links.getMal : Links → Option String
  | .nonDict => none
  | .dict _ mal => mal

/-- A manga object as the program sees it: the JSON fields the embedded code
reads, plus the keys enrichment adds (`reading_status`, `read_chapter`,
`read_volume`, `user_rating`), `none` meaning the key is absent.  The source
stores `read_chapter` / `read_volume` as the decimal string of a float and
re-parses it downstream; the round trip is exact, so they are kept as `ℚ`
here (`some q` models the string for `q`). -/
structure Manga where
  id : String
  links : Links
  title : List (String × String)
  attrReadingStatus : Option String
  reading_status : Option String
  read_chapter : Option ℚ
  read_volume : Option ℚ
  user_rating : Option ℚ
deriving DecidableEq

/-- A raw element of the `/manga/{id}/feed` response's `data` array: its
`type` discriminator, its `id`, and the parse results of its
`attributes.chapter` and `attributes.volume` strings (`none` models an
absent or unparsable value — `parse_chapter_num` / `parse_volume_num` in the
source turn exactly those cases into `0` via their `except` branches and the
`or 0` default, and a present parsable string into its float value). -/
structure ChapterRaw where
  ctype : String
  id : String
  chapter : Option ℚ
  volume : Option ℚ
deriving DecidableEq

/-- `parse_chapter_num` of src/main2.py (lines 204–208):
`float(ch['attributes'].get('chapter') or 0)` with `except: return 0`. -/
def parse_chapter_num (ch : ChapterRaw) : ℚ :=
  ch.chapter.getD 0

/-- `parse_volume_num` of src/main2.py (lines 209–214):
`float(v) if v is not None else 0` with `except: return 0`. -/
def parse_volume_num (ch : ChapterRaw) : ℚ :=
  ch.volume.getD 0

/-- The remote MangaDex API as the enrichment engine consumes it, one oracle
per endpoint the code calls inside `get_manga_info`:
`fetchManga b` is the `data` array of `GET /manga?ids[]=b`;
`readMap i` is `read_status_map.get(i, [])`, the read-chapter-id list for
manga `i` from the batched `GET /manga/read` call (the non-fatal failure of
that call is the oracle returning `[]` everywhere);
`feedData i` is the `data` array of `GET /manga/{i}/feed`;
`rating i` is the `rating` value of `ratings_map.get(i)` when that entry is
a truthy dict carrying a `rating` key, else `none`. -/
structure Api where
  fetchManga : List String → List Manga
  readMap : String → List String
  feedData : String → List ChapterRaw
  rating : String → Option ℚ

end MDex

namespace Main2

open MDex

/-- Fuel-driven helper for `batches100`: while the list is non-empty, slice
off its first 100 elements.  The fuel only bounds the recursion (any fuel at
least the list's length yields the slicing of src/main2.py line 116) and
keeps the definition structurally recursive, hence computable by the
kernel. -/
def batchesGo {α : Type} : Nat → List α → List (List α)
  | _, [] => []
  | 0, _ :: _ => []
  | fuel + 1, x :: xs => (x :: xs.take 99) :: batchesGo fuel (xs.drop 99)

/-- The batch slicing of src/main2.py line 116:
`[manga_ids[i:i+batch_size] for i in range(0, len(manga_ids), batch_size)]`
with `batch_size = 100`. -/
def batches100 {α : Type} (l : List α) : List (List α) :=
  batchesGo l.length l

/-- `fetch_chapter_list` of src/main2.py (lines 130–149), reduced to its data
flow: the feed response's `data` filtered to elements whose `type` is
`"chapter"` and whose `id` is in the manga's read-chapter-id set.  A failed
feed call degrades to the empty list, which the oracle also represents. -/
def fetch_chapter_list (api : Api) (manga_id : String)
    (read_chapter_ids : List String) : List ChapterRaw :=
  (api.feedData manga_id).filter fun c =>
    c.ctype == "chapter" && read_chapter_ids.contains c.id

/-- Lines 185–187 of src/main2.py: attach `reading_status` from the status
map when the manga's id is truthy and is a key of the map. -/
def attachStatus (status_map : List (String × String)) (m : Manga) : Manga :=
  if !m.id.isEmpty then
    match pyDictGet status_map m.id with
    | some st => { m with reading_status := some st }
    | none => m
  else m

/-- Lines 188–231 of src/main2.py, for one manga of a batch: when the manga
has no recorded read chapters it gets progress `("0", "0")` and skips both
the chapter fetch and the rating merge (it is never appended to `futures`,
and `user_rating` is only assigned in the loop over `futures`); otherwise
its kept chapter list is reduced to the two independent maxima, clamped at
0, and the batch rating (default 0) is merged. -/
def attachProgress (api : Api) (m : Manga) : Manga :=
  let read_chapter_ids := api.readMap m.id
  if read_chapter_ids.isEmpty then
    { m with read_chapter := some 0, read_volume := some 0 }
  else
    let chapters := fetch_chapter_list api m.id read_chapter_ids
    let m1 :=
      match chapters with
      | [] => { m with read_chapter := some 0, read_volume := some 0 }
      | c :: cs =>
        let max_chapter := pyMaxBy parse_chapter_num c cs
        let max_volume := pyMaxBy parse_volume_num c cs
        { m with
            read_chapter := some (max (parse_chapter_num max_chapter) 0),
            read_volume := some (max (parse_volume_num max_volume) 0) }
    { m1 with user_rating := some ((api.rating m1.id).getD 0) }

/-- The whole per-item enrichment performed by the two loops of lines
184–231 of src/main2.py on one element of a batch's `data`. -/
def enrichOne (api : Api) (status_map : List (String × String))
    (m : Manga) : Manga :=
  attachProgress api (attachStatus status_map m)

/-- One iteration of `for batch in batches:` (lines 150–232 of src/main2.py):
the batch metadata call's `data`, each element enriched in place; `data`'s
order is unchanged (the dicts are mutated, the list is not reordered). -/
def processBatch (api : Api) (status_map : List (String × String))
    (batch : List String) : List Manga :=
  (api.fetchManga batch).map (enrichOne api status_map)

/-- `all_info` accumulated over a list of batches
(`all_info.extend(data)` once per batch). -/
def processBatches (api : Api) (status_map : List (String × String)) :
    List (List String) → List Manga
  | [] => []
  | b :: bs => processBatch api status_map b ++ processBatches api status_map bs

/-- `get_manga_info` of src/main2.py (lines 103–233), with the HTTP boundary
abstracted into `api`: slice the ids into batches of 100 and enrich each
batch in order. -/
def get_manga_info (api : Api) (manga_ids : List String)
    (status_map : List (String × String)) : List Manga :=
  processBatches api status_map (batches100 manga_ids)

/-- The three-way split at the head of `import_to_anilist_then_export`
(src/main2.py lines 717–732): per item, a truthy `al` link sends it to
`manga_with_alid`; else a truthy `mal` link sends it to `manga_with_malid`;
else it falls to `manga_unlinked`.  The loop appends, so each output list
keeps the input's relative order. -/
def import_to_anilist_then_export :
    List Manga → List Manga × List Manga × List Manga
  | [] => ([], [], [])
  | m :: rest =>
    let (alid, malid, unlinked) := import_to_anilist_then_export rest
    if optTruthy m.links.getAl then (m :: alid, malid, unlinked)
    else if optTruthy m.links.getMal then (alid, m :: malid, unlinked)
    else (alid, malid, m :: unlinked)

/-- The fixed 6-to-5 reading-status table `manga_status_map` of
src/main2.py lines 360–367. -/
def manga_status_map : List (String × String) :=
  [("reading", "Reading"), ("completed", "Completed"), ("on_hold", "On-Hold"),
   ("dropped", "Dropped"), ("plan_to_read", "Plan to Read"),
   ("re_reading", "Reading")]

/-- Lines 381–385 of src/main2.py: the raw reading status used for an
exported item — the item's own `reading_status` when truthy, else
`attributes.get("reading_status", "plan_to_read")`. -/
def resolveReadingStatus (m : Manga) : String :=
  if optTruthy m.reading_status then (m.reading_status).getD ""
  else (m.attrReadingStatus).getD "plan_to_read"

/-- Lines 398–399 of src/main2.py:
`title_dict.get('en') or next(iter(title_dict.values()), '')`. -/
def resolveTitle (title_dict : List (String × String)) : String :=
  let en := pyDictGet title_dict "en"
  if optTruthy en then en.getD ""
  else ((title_dict.head?).map Prod.snd).getD ""

/-- One `<manga>` element as emitted by lines 396–421 of src/main2.py — the
fields that vary per item (the rest are constant placeholders). -/
structure XmlEntry where
  manga_mangadb_id : String
  manga_title : String
  my_read_volumes : ℚ
  my_read_chapters : ℚ
  my_score : ℚ
  my_status : String
deriving DecidableEq

/-- The `<manga>` element built for an exported item whose resolved
`my_status` is `status`. -/
def mkEntry (m : Manga) (status : String) : XmlEntry :=
  { manga_mangadb_id := (m.links.getMal).getD ""
    manga_title := resolveTitle m.title
    my_read_volumes := (m.read_volume).getD 0
    my_read_chapters := (m.read_chapter).getD 0
    my_score := (m.user_rating).getD 0
    my_status := status }

/-- The state threaded through the `for manga in manga_info_list:` loop of
`export_manga_list_to_xml` (src/main2.py lines 343–427): the running
per-status totals, the exported / not-found counters, the `<manga>` elements
appended to the document so far, and the `unlinked` side list. -/
structure XmlState where
  exported : Nat
  total_reading : Nat
  total_completed : Nat
  total_onhold : Nat
  total_dropped : Nat
  total_plantoread : Nat
  not_found : Nat
  entries : List XmlEntry
  unlinked : List Manga
deriving DecidableEq

/-- The loop state before the first iteration. -/
def initXmlState : XmlState :=
  { exported := 0, total_reading := 0, total_completed := 0, total_onhold := 0,
    total_dropped := 0, total_plantoread := 0, not_found := 0,
    entries := [], unlinked := [] }

/-- One iteration of the export loop (src/main2.py lines 369–421): a falsy
`mal` link diverts the item to `unlinked`; otherwise the status is resolved
through `manga_status_map` (default `"Reading"`), exactly the matching
`elif` counter is bumped, and the `<manga>` element is appended. -/
def xmlStep (acc : XmlState) (m : Manga) : XmlState :=
  if !optTruthy m.links.getMal then
    { acc with not_found := acc.not_found + 1, unlinked := acc.unlinked ++ [m] }
  else
    let status := (pyDictGet manga_status_map (resolveReadingStatus m)).getD "Reading"
    let acc := { acc with exported := acc.exported + 1 }
    let acc :=
      if status == "Reading" then
        { acc with total_reading := acc.total_reading + 1 }
      else if status == "Completed" then
        { acc with total_completed := acc.total_completed + 1 }
      else if status == "On-Hold" then
        { acc with total_onhold := acc.total_onhold + 1 }
      else if status == "Dropped" then
        { acc with total_dropped := acc.total_dropped + 1 }
      else if status == "Plan to Read" then
        { acc with total_plantoread := acc.total_plantoread + 1 }
      else acc
    { acc with entries := acc.entries ++ [mkEntry m status] }

/-- The data part of `export_manga_list_to_xml` (src/main2.py lines
343–427): the loop over the items, yielding the final counters (written to
the `<myinfo>` totals, with `user_total_manga = exported`), the emitted
`<manga>` elements and the `unlinked` side partition.  The serialization to
a file and the CDATA rewriting of `manga_title` are I/O on this state and
are not modelled. -/
def export_manga_list_to_xml (manga_info_list : List Manga) : XmlState :=
  manga_info_list.foldl xmlStep initXmlState

/-- The secondary sink the `unlinked` side partition is routed to. -/
inductive UnlinkedSink where
  | anilist : UnlinkedSink
  | csv : UnlinkedSink
deriving DecidableEq

/-- Lines 447–455 of src/main2.py: after the XML is written, answer `"y"`
routes the whole `unlinked` list to `sync_to_anilist`, and any other answer
(including `"n"` and invalid input) routes it to `export_unlinked_to_csv`.
Returns the chosen sink together with the list it receives. -/
def routeUnlinked (answer : String) (manga_info_list : List Manga) :
    UnlinkedSink × List Manga :=
  let unlinked := (export_manga_list_to_xml manga_info_list).unlinked
  if answer == "y" then (.anilist, unlinked) else (.csv, unlinked)

/-- The fixed 6-to-5 AniList status table `reading_status_map` of
src/main2.py lines 509–516. -/
def anilist_status_map : List (String × String) :=
  [("reading", "CURRENT"), ("completed", "COMPLETED"), ("on_hold", "PAUSED"),
   ("dropped", "DROPPED"), ("plan_to_read", "PLANNING"),
   ("re_reading", "CURRENT")]

/-- The GraphQL mutation variables for one item, after the
`{k: v for k, v in variables.items() if v is not None}` filtering of
src/main2.py line 543: `none` in an optional field means the key is absent
from the payload (never sent as null); `mediaId` and `status` are always
present. -/
structure AniListVariables where
  mediaId : Int
  status : String
  score : Option ℚ
  progress : Option Int
  progressVolumes : Option Int
deriving DecidableEq

/-- Lines 517–518 of src/main2.py:
`raw_status = manga.get('reading_status')` followed by
`mapped_status = reading_status_map.get(raw_status, "CURRENT")` — an absent
key (a `None` raw status included) falls back to `"CURRENT"`. -/
def mapped_status_of (rs : Option String) : String :=
  match rs with
  | some s => (pyDictGet anilist_status_map s).getD "CURRENT"
  | none => "CURRENT"

/-- The per-item payload construction of `sync_to_anilist` (src/main2.py
lines 489–543).  `none` models the paths on which no mutation is sent for
the item: a falsy `al` link (`continue`, lines 495–497), or `int(al_id)`
raising (line 536, which would abort the run).  `score` is
`float(manga.get('user_rating'))` with `None` kept as `None`;
`progress` / `progressVolumes` are `int(float(manga.get(key, 0)))`, whose
value under the `ℚ` model of the stored progress strings always parses. -/
def sync_to_anilist_payload (m : Manga) : Option AniListVariables :=
  match m.links.getAl with
  | none => none
  | some al =>
    if al.isEmpty then none
    else
      match pyParseInt al with
      | none => none
      | some mid =>
        some
          { mediaId := mid
            status := mapped_status_of m.reading_status
            score := m.user_rating
            progress := some (pyInt ((m.read_chapter).getD 0))
            progressVolumes := some (pyInt ((m.read_volume).getD 0)) }

end Main2

namespace MDex

/-- The outcome of one physical HTTP request: a response carrying a status
code, or a `ConnectionError` / `Timeout` raised by the requests library. -/
inductive HttpOutcome where
  | resp (status : Nat) : HttpOutcome
  | netErr : HttpOutcome
deriving DecidableEq

/-- How a `request_with_retry` call ends: a returned response (status below
400), a raised `HTTPError` carrying the status, a network failure propagated
after exhausting the retries, or (src/main2.py only) a re-login that raised
a non-network, non-HTTP error (e.g. the `ValueError` `login` raises on bad
credentials), which none of the `except` clauses catch. -/
inductive RetryResult where
  | success (status : Nat) : RetryResult
  | httpError (status : Nat) : RetryResult
  | netFailure : RetryResult
  | loginError : RetryResult
deriving DecidableEq

/-- An observation log of one `request_with_retry` call: the `Authorization`
header of each physical request to the target URL in order, the number of
login handshakes run, the seconds of each `time.sleep` between attempts,
and the session token stored by `save_session` (none when never updated). -/
structure RetryTrace where
  calls : List (Option String)
  logins : Nat
  sleeps : List Nat
  tokens : Option String
deriving DecidableEq

/-- Python's substring operator `pat in s`. -/
def strContains (s pat : String) : Bool :=
  s.data.tails.any fun t => pat.data.isPrefixOf t

end MDex

namespace Main2

open MDex

/-- The `for attempt in range(max_retries)` loop of `request_with_retry`
(src/main2.py lines 673–714).  `fuel` is the number of remaining loop
iterations, `k` indexes the physical requests (`http k` is the outcome of
the k-th request sent), `auth` is the `Authorization` header currently in
`kwargs` (re-login overwrites it for every later attempt, since `kwargs` is
mutated), `creds` is `SESSION_CREDENTIALS` and `loginResult` abstracts the
`login(username, password)` handshake — `some tok` is a success whose
returned tokens carry session token `tok`, `none` a raised error.  A 401
loads credentials only when the literal text `"LOGIN_ENDPOINT"` is not a
substring of the URL — that is what line 681 tests.  On a network error the
attempt sleeps 10 seconds and retries unless it was the last; a network
error on the post-re-login retry is caught by the same outer handler and
also re-enters the loop. -/
def request_with_retry_loop (url : String) (creds : Option (String × String))
    (loginResult : Option String) (http : Nat → HttpOutcome) :
    Nat → Nat → Option String → RetryTrace → RetryResult × RetryTrace
  | 0, _, _, tr => (.netFailure, tr)
  | fuel + 1, k, auth, tr =>
    let tr := { tr with calls := tr.calls ++ [auth] }
    match http k with
    | .netErr =>
      if fuel == 0 then (.netFailure, tr)
      else
        request_with_retry_loop url creds loginResult http fuel (k + 1) auth
          { tr with sleeps := tr.sleeps ++ [10] }
    | .resp status =>
      if status == 401 then
        let credentials := if strContains url "LOGIN_ENDPOINT" then none else creds
        match credentials with
        | none => (.httpError 401, tr)
        | some _ =>
          match loginResult with
          | none => (.loginError, { tr with logins := tr.logins + 1 })
          | some tok =>
            let auth2 : Option String := some ("Bearer " ++ tok)
            let tr :=
              { tr with logins := tr.logins + 1, tokens := some tok,
                        calls := tr.calls ++ [auth2] }
            match http (k + 1) with
            | .netErr =>
              if fuel == 0 then (.netFailure, tr)
              else
                request_with_retry_loop url creds loginResult http fuel (k + 2) auth2
                  { tr with sleeps := tr.sleeps ++ [10] }
            | .resp s2 =>
              if 400 ≤ s2 then (.httpError s2, tr) else (.success s2, tr)
      else if 400 ≤ status then (.httpError status, tr)
      else (.success status, tr)

/-- `request_with_retry` of src/main2.py with its default arguments
`max_retries = 6`, `delay = 10`: run the loop with full fuel, an empty
trace, and the caller's `Authorization` header. -/
def request_with_retry (url : String) (auth : Option String)
    (creds : Option (String × String)) (loginResult : Option String)
    (http : Nat → HttpOutcome) : RetryResult × RetryTrace :=
  request_with_retry_loop url creds loginResult http 6 0 auth
    { calls := [], logins := 0, sleeps := [], tokens := none }

end Main2

namespace Main

open MDex

/-- The retry loop of `request_with_retry` in src/main.py (lines 533–550):
network errors are retried with a 10-second sleep up to the attempt cap,
every HTTP error status (401 included) is raised immediately, a success is
returned.  The state carries the number of physical requests made and the
sleeps performed. -/
def request_with_retry_loop (http : Nat → HttpOutcome) :
    Nat → Nat → Nat → List Nat → RetryResult × Nat × List Nat
  | 0, _, calls, sleeps => (.netFailure, calls, sleeps)
  | fuel + 1, k, calls, sleeps =>
    match http k with
    | .netErr =>
      if fuel == 0 then (.netFailure, calls + 1, sleeps)
      else request_with_retry_loop http fuel (k + 1) (calls + 1) (sleeps ++ [10])
    | .resp status =>
      if 400 ≤ status then (.httpError status, calls + 1, sleeps)
      else (.success status, calls + 1, sleeps)

/-- `request_with_retry` of src/main.py with its default arguments
`max_retries = 6`, `delay = 10`. -/
def request_with_retry (http : Nat → HttpOutcome) :
    RetryResult × Nat × List Nat :=
  request_with_retry_loop http 6 0 0 []

end Main

namespace Main

/-- The `special` table of `iso6391_to_language` in src/main.py (lines 422–461), in source
order. -/
def special_table : List (String × String) :=
  [
   ("zh", "Simplified Chinese"), ("zh-hk", "Traditional Chinese"), ("pt-br", "Brazilian Portuguese"),
   ("es", "Castilian Spanish"), ("es-la", "Latin American Spanish"), ("ja-ro", "Romanized Japanese"),
   ("ko-ro", "Romanized Korean"), ("zh-ro", "Romanized Chinese")]

/-- The `iso_map` table of `iso6391_to_language` in src/main.py (lines 422–461), in source
order, duplicate keys included (a Python dict literal keeps the last
binding of a repeated key, which `MDex.pyDictGet` reproduces). -/
def iso_map_table : List (String × String) :=
  [
   ("en", "English"), ("ja", "Japanese"), ("ko", "Korean"),
   ("zh", "Chinese"), ("fr", "French"), ("de", "German"),
   ("es", "Spanish"), ("it", "Italian"), ("ru", "Russian"),
   ("pt", "Portuguese"), ("pl", "Polish"), ("id", "Indonesian"),
   ("tr", "Turkish"), ("ar", "Arabic"), ("th", "Thai"),
   ("vi", "Vietnamese"), ("cs", "Czech"), ("ms", "Malay"),
   ("ro", "Romanian"), ("uk", "Ukrainian"), ("hu", "Hungarian"),
   ("bg", "Bulgarian"), ("fa", "Persian"), ("he", "Hebrew"),
   ("hi", "Hindi"), ("bn", "Bengali"), ("el", "Greek"),
   ("sv", "Swedish"), ("fi", "Finnish"), ("da", "Danish"),
   ("no", "Norwegian"), ("nl", "Dutch"), ("ca", "Catalan"),
   ("sr", "Serbian"), ("hr", "Croatian"), ("sk", "Slovak"),
   ("sl", "Slovenian"), ("et", "Estonian"), ("lv", "Latvian"),
   ("lt", "Lithuanian"), ("ta", "Tamil"), ("te", "Telugu"),
   ("ml", "Malayalam"), ("kn", "Kannada"), ("mr", "Marathi"),
   ("gu", "Gujarati"), ("pa", "Punjabi"), ("ur", "Urdu"),
   ("my", "Burmese"), ("km", "Khmer"), ("lo", "Lao"),
   ("si", "Sinhala"), ("am", "Amharic"), ("sw", "Swahili"),
   ("zu", "Zulu"), ("xh", "Xhosa"), ("st", "Southern Sotho"),
   ("tn", "Tswana"), ("ts", "Tsonga"), ("ss", "Swati"),
   ("ve", "Venda"), ("nr", "Southern Ndebele"), ("nd", "Northern Ndebele"),
   ("af", "Afrikaans"), ("sq", "Albanian"), ("bs", "Bosnian"),
   ("mk", "Macedonian"), ("mt", "Maltese"), ("ga", "Irish"),
   ("cy", "Welsh"), ("gd", "Scottish Gaelic"), ("br", "Breton"),
   ("eu", "Basque"), ("gl", "Galician"), ("oc", "Occitan"),
   ("lb", "Luxembourgish"), ("is", "Icelandic"), ("fo", "Faroese"),
   ("kl", "Greenlandic"), ("sm", "Samoan"), ("to", "Tongan"),
   ("fj", "Fijian"), ("mi", "Maori"), ("qu", "Quechua"),
   ("ay", "Aymara"), ("gn", "Guarani"), ("tt", "Tatar"),
   ("ba", "Bashkir"), ("cv", "Chuvash"), ("ce", "Chechen"),
   ("os", "Ossetian"), ("av", "Avaric"), ("kv", "Komi"),
   ("cu", "Church Slavic"), ("tk", "Turkmen"), ("ky", "Kyrgyz"),
   ("kk", "Kazakh"), ("uz", "Uzbek"), ("tg", "Tajik"),
   ("mn", "Mongolian"), ("ne", "Nepali"), ("si", "Sinhala"),
   ("ps", "Pashto"), ("sd", "Sindhi"), ("ug", "Uyghur"),
   ("uz", "Uzbek"), ("kk", "Kazakh"), ("ky", "Kyrgyz"),
   ("tk", "Turkmen"), ("az", "Azerbaijani"), ("ka", "Georgian"),
   ("hy", "Armenian"), ("ab", "Abkhazian"), ("os", "Ossetian"),
   ("cv", "Chuvash"), ("ba", "Bashkir"), ("tt", "Tatar"),
   ("sah", "Yakut"), ("ce", "Chechen"), ("cu", "Church Slavic"),
   ("cv", "Chuvash"), ("kv", "Komi"), ("av", "Avaric"),
   ("ae", "Avestan"), ("nr", "Southern Ndebele"), ("ss", "Swati"),
   ("st", "Southern Sotho"), ("tn", "Tswana"), ("ts", "Tsonga"),
   ("ve", "Venda"), ("xh", "Xhosa"), ("zu", "Zulu")]

/-- `iso6391_to_language` of src/main.py (lines 422–461): the irregular/compound-code table
is consulted first, then the general ISO table, and a code in neither is
returned unchanged. -/
def iso6391_to_language (code : String) : String :=
  match MDex.pyDictGet special_table code with
  | some v => v
  | none =>
    match MDex.pyDictGet iso_map_table code with
    | some v => v
    | none => code

end Main

namespace Main2

/-- The `special` table of `iso6391_to_language` in src/main2.py (lines 562–601), in source
order. -/
def special_table : List (String × String) :=
  [
   ("zh", "Simplified Chinese"), ("zh-hk", "Traditional Chinese"), ("pt-br", "Brazilian Portuguese"),
   ("es", "Castilian Spanish"), ("es-la", "Latin American Spanish"), ("ja-ro", "Romanized Japanese"),
   ("ko-ro", "Romanized Korean"), ("zh-ro", "Romanized Chinese")]

/-- The `iso_map` table of `iso6391_to_language` in src/main2.py (lines 562–601), in source
order, duplicate keys included (a Python dict literal keeps the last
binding of a repeated key, which `MDex.pyDictGet` reproduces). -/
def iso_map_table : List (String × String) :=
  [
   ("en", "English"), ("ja", "Japanese"), ("ko", "Korean"),
   ("zh", "Chinese"), ("fr", "French"), ("de", "German"),
   ("es", "Spanish"), ("it", "Italian"), ("ru", "Russian"),
   ("pt", "Portuguese"), ("pl", "Polish"), ("id", "Indonesian"),
   ("tr", "Turkish"), ("ar", "Arabic"), ("th", "Thai"),
   ("vi", "Vietnamese"), ("cs", "Czech"), ("ms", "Malay"),
   ("ro", "Romanian"), ("uk", "Ukrainian"), ("hu", "Hungarian"),
   ("bg", "Bulgarian"), ("fa", "Persian"), ("he", "Hebrew"),
   ("hi", "Hindi"), ("bn", "Bengali"), ("el", "Greek"),
   ("sv", "Swedish"), ("fi", "Finnish"), ("da", "Danish"),
   ("no", "Norwegian"), ("nl", "Dutch"), ("ca", "Catalan"),
   ("sr", "Serbian"), ("hr", "Croatian"), ("sk", "Slovak"),
   ("sl", "Slovenian"), ("et", "Estonian"), ("lv", "Latvian"),
   ("lt", "Lithuanian"), ("ta", "Tamil"), ("te", "Telugu"),
   ("ml", "Malayalam"), ("kn", "Kannada"), ("mr", "Marathi"),
   ("gu", "Gujarati"), ("pa", "Punjabi"), ("ur", "Urdu"),
   ("my", "Burmese"), ("km", "Khmer"), ("lo", "Lao"),
   ("si", "Sinhala"), ("am", "Amharic"), ("sw", "Swahili"),
   ("zu", "Zulu"), ("xh", "Xhosa"), ("st", "Southern Sotho"),
   ("tn", "Tswana"), ("ts", "Tsonga"), ("ss", "Swati"),
   ("ve", "Venda"), ("nr", "Southern Ndebele"), ("nd", "Northern Ndebele"),
   ("af", "Afrikaans"), ("sq", "Albanian"), ("bs", "Bosnian"),
   ("mk", "Macedonian"), ("mt", "Maltese"), ("ga", "Irish"),
   ("cy", "Welsh"), ("gd", "Scottish Gaelic"), ("br", "Breton"),
   ("eu", "Basque"), ("gl", "Galician"), ("oc", "Occitan"),
   ("lb", "Luxembourgish"), ("is", "Icelandic"), ("fo", "Faroese"),
   ("kl", "Greenlandic"), ("sm", "Samoan"), ("to", "Tongan"),
   ("fj", "Fijian"), ("mi", "Maori"), ("qu", "Quechua"),
   ("ay", "Aymara"), ("gn", "Guarani"), ("tt", "Tatar"),
   ("ba", "Bashkir"), ("cv", "Chuvash"), ("ce", "Chechen"),
   ("os", "Ossetian"), ("av", "Avaric"), ("kv", "Komi"),
   ("cu", "Church Slavic"), ("tk", "Turkmen"), ("ky", "Kyrgyz"),
   ("kk", "Kazakh"), ("uz", "Uzbek"), ("tg", "Tajik"),
   ("mn", "Mongolian"), ("ne", "Nepali"), ("si", "Sinhala"),
   ("ps", "Pashto"), ("sd", "Sindhi"), ("ug", "Uyghur"),
   ("uz", "Uzbek"), ("kk", "Kazakh"), ("ky", "Kyrgyz"),
   ("tk", "Turkmen"), ("az", "Azerbaijani"), ("ka", "Georgian"),
   ("hy", "Armenian"), ("ab", "Abkhazian"), ("os", "Ossetian"),
   ("cv", "Chuvash"), ("ba", "Bashkir"), ("tt", "Tatar"),
   ("sah", "Yakut"), ("ce", "Chechen"), ("cu", "Church Slavic"),
   ("cv", "Chuvash"), ("kv", "Komi"), ("av", "Avaric"),
   ("ae", "Avestan"), ("nr", "Southern Ndebele"), ("ss", "Swati"),
   ("st", "Southern Sotho"), ("tn", "Tswana"), ("ts", "Tsonga"),
   ("ve", "Venda"), ("xh", "Xhosa"), ("zu", "Zulu")]

/-- `iso6391_to_language` of src/main2.py (lines 562–601): the irregular/compound-code table
is consulted first, then the general ISO table, and a code in neither is
returned unchanged. -/
def iso6391_to_language (code : String) : String :=
  match MDex.pyDictGet special_table code with
  | some v => v
  | none =>
    match MDex.pyDictGet iso_map_table code with
    | some v => v
    | none => code

end Main2

namespace MDex

/-- Claim-side definition: "the maximum parsed chapter number over all kept
chapters" (chapters with an absent or unparsable chapter number counting as
0 through `parse_chapter_num`), 0 for an empty list. -/
def maxParsedChapter : List ChapterRaw → ℚ
  | [] => 0
  | c :: cs => (cs.map parse_chapter_num).foldl max (parse_chapter_num c)

/-- Claim-side definition: "the maximum parsed volume number over all kept
chapters", 0 for an empty list. -/
def maxParsedVolume : List ChapterRaw → ℚ
  | [] => 0
  | c :: cs => (cs.map parse_volume_num).foldl max (parse_volume_num c)

/-- Claim-side definition: the fixed 6-to-5 status table of the
remote-import sink as the specification states it (reading→CURRENT,
completed→COMPLETED, on_hold→PAUSED, dropped→DROPPED,
plan_to_read→PLANNING, re_reading→CURRENT), with default CURRENT for an
unmapped or absent status. -/
def specStatusTable (rs : Option String) : String :=
  if rs = some "reading" then "CURRENT"
  else if rs = some "completed" then "COMPLETED"
  else if rs = some "on_hold" then "PAUSED"
  else if rs = some "dropped" then "DROPPED"
  else if rs = some "plan_to_read" then "PLANNING"
  else if rs = some "re_reading" then "CURRENT"
  else "CURRENT"

/-- A manga object as returned by the metadata endpoint, before enrichment:
all enrichment keys absent. -/
def rawManga (i : String) (links : Links) : Manga :=
  { id := i, links := links, title := [], attrReadingStatus := none,
    reading_status := none, read_chapter := none, read_volume := none,
    user_rating := none }

end MDex

namespace Scen

open MDex

/-- The C5 scenario's item `id1`, carrying Id-A (a MAL link) only. -/
def mangaId1 : Manga := rawManga "id1" (.dict none (some "100"))

/-- The C5 scenario's item `id2`, carrying neither identifier. -/
def mangaId2 : Manga := rawManga "id2" (.dict none none)

/-- The C5 scenario's remote API: the one metadata batch returns the two
items, and neither has any read history or rating. -/
def apiC5 : Api :=
  { fetchManga := fun _ => [mangaId1, mangaId2]
    readMap := fun _ => []
    feedData := fun _ => []
    rating := fun _ => none }

/-- The C5 scenario's library status map. -/
def smC5 : List (String × String) := [("id1", "reading"), ("id2", "completed")]

/-- The C6 counterexample's API: item `m1` has one read chapter whose
chapter attribute parses to the negative float -1 (the string "-1"). -/
def apiC6 : Api :=
  { fetchManga := fun _ => []
    readMap := fun _ => ["ch1"]
    feedData := fun _ => [{ ctype := "chapter", id := "ch1", chapter := some (-1), volume := none }]
    rating := fun _ => none }

/-- The C6 counterexample's manga object. -/
def mangaC6 : Manga := rawManga "m1" .nonDict

/-- The C6 witness's API: two read chapters where the maximum chapter number
(5, on `ch1`) and the maximum volume number (3, on `ch2`) come from
different chapter elements. -/
def apiC6w : Api :=
  { fetchManga := fun _ => []
    readMap := fun _ => ["ch1", "ch2"]
    feedData := fun _ =>
      [{ ctype := "chapter", id := "ch1", chapter := some 5, volume := some 1 },
       { ctype := "chapter", id := "ch2", chapter := some 2, volume := some 3 }]
    rating := fun _ => some 7 }

/-- The C6 witness's manga object. -/
def mangaC6w : Manga := rawManga "m2" .nonDict

/-- The C1 witness's API: the metadata endpoint echoes each requested id as
a raw manga object. -/
def apiC1 : Api :=
  { fetchManga := fun b => b.map fun i => rawManga i .nonDict
    readMap := fun _ => []
    feedData := fun _ => []
    rating := fun _ => none }

/-- The C8 witness's item: Id-B (AniList id) "123", status on_hold, rating
7.5, progress 12.5 chapters and 2 volumes. -/
def mangaC8 : Manga :=
  { id := "m8", links := .dict (some "123") none, title := [],
    attrReadingStatus := none, reading_status := some "on_hold",
    read_chapter := some (mkRat 25 2), read_volume := some 2,
    user_rating := some (mkRat 15 2) }

end Scen

open MDex

theorem batchesGo_flatten {α : Type} :
    ∀ (fuel : Nat) (l : List α), l.length ≤ fuel → (Main2.batchesGo fuel l).flatten = l := by
  intro fuel
  induction fuel with
  | zero =>
    intro l hl
    cases l with
    | nil => rfl
    | cons x xs => simp at hl
  | succ fuel ih =>
    intro l hl
    cases l with
    | nil => rfl
    | cons x xs =>
      have hlen : (xs.drop 99).length ≤ fuel := by
        simp only [List.length_drop]
        simp only [List.length_cons] at hl
        omega
      simp [Main2.batchesGo, ih (xs.drop 99) hlen, List.take_append_drop]

theorem batches100_flatten {α : Type} (l : List α) : (Main2.batches100 l).flatten = l :=
  batchesGo_flatten l.length l le_rfl

theorem attachStatus_id (sm : List (String × String)) (m : Manga) :
    (Main2.attachStatus sm m).id = m.id := by
  unfold Main2.attachStatus
  split
  · split <;> rfl
  · rfl

theorem attachProgress_id (api : Api) (m : Manga) :
    (Main2.attachProgress api m).id = m.id := by
  unfold Main2.attachProgress
  by_cases h : (api.readMap m.id).isEmpty <;> simp only [h]
  · rfl
  · simp only [Bool.false_eq_true, if_false]
    cases hch : Main2.fetch_chapter_list api m.id (api.readMap m.id) <;> simp [hch]

theorem enrichOne_id (api : Api) (sm : List (String × String)) (m : Manga) :
    (Main2.enrichOne api sm m).id = m.id := by
  unfold Main2.enrichOne
  rw [attachProgress_id, attachStatus_id]

theorem processBatches_ids (api : Api) (sm : List (String × String))
    (hapi : ∀ b, (api.fetchManga b).map Manga.id = b) :
    ∀ bs : List (List String),
      (Main2.processBatches api sm bs).map Manga.id = bs.flatten := by
  intro bs
  induction bs with
  | nil => rfl
  | cons b rest ih =>
    have hb : ((api.fetchManga b).map (Main2.enrichOne api sm)).map Manga.id = b := by
      rw [List.map_map]
      have : Manga.id ∘ Main2.enrichOne api sm = Manga.id :=
        funext fun m => enrichOne_id api sm m
      rw [this, hapi b]
    simp [Main2.processBatches, Main2.processBatch, List.map_append, ih, hb]

/-- C1: for every input list of ids and every status map, the enrichment
operation `get_manga_info` of src/main2.py returns exactly one enriched
item per input id — the output's id sequence is exactly the input id
sequence, so no id is dropped and (for duplicate-free input) none appears
twice — and this holds for any partition of the ids into batches, the
slicing into batches of 100 included.  The hypothesis states that the
batched metadata endpoint returns exactly one object per requested id. -/
theorem C1_enrich_one_item_per_id (api : Api) (sm : List (String × String))
    (manga_ids : List String)
    (hapi : ∀ b, (api.fetchManga b).map Manga.id = b) :
    (Main2.get_manga_info api manga_ids sm).map Manga.id = manga_ids
    ∧ (∀ bs : List (List String), bs.flatten = manga_ids →
        (Main2.processBatches api sm bs).map Manga.id = manga_ids)
    ∧ (manga_ids.Nodup →
        ((Main2.get_manga_info api manga_ids sm).map Manga.id).Nodup) := by
  have hmain : (Main2.get_manga_info api manga_ids sm).map Manga.id = manga_ids := by
    unfold Main2.get_manga_info
    rw [processBatches_ids api sm hapi, batches100_flatten]
  refine ⟨hmain, fun bs hbs => ?_, fun hnd => ?_⟩
  · rw [processBatches_ids api sm hapi, hbs]
  · rw [hmain]; exact hnd

/-- Witness for C1 at a concrete two-id library. -/
theorem C1_enrich_one_item_per_id_witness :
    (Main2.get_manga_info Scen.apiC1 ["a", "b"] []).map Manga.id = ["a", "b"] :=
  (C1_enrich_one_item_per_id Scen.apiC1 [] ["a", "b"]
    (by
      intro b
      simp [Scen.apiC1, List.map_map, Function.comp_def, MDex.rawManga])).1

theorem import_split_filter (l : List Manga) :
    Main2.import_to_anilist_then_export l =
      (l.filter fun m => optTruthy m.links.getAl,
       l.filter fun m => !optTruthy m.links.getAl && optTruthy m.links.getMal,
       l.filter fun m => !optTruthy m.links.getAl && !optTruthy m.links.getMal) := by
  induction l with
  | nil => rfl
  | cons m rest ih =>
    simp only [Main2.import_to_anilist_then_export, ih, List.filter_cons]
    by_cases h1 : optTruthy m.links.getAl <;> by_cases h2 : optTruthy m.links.getMal <;>
      simp [h1, h2]

theorem import_split_perm (l : List Manga) :
    ((Main2.import_to_anilist_then_export l).1 ++
      (Main2.import_to_anilist_then_export l).2.1 ++
      (Main2.import_to_anilist_then_export l).2.2).Perm l := by
  induction l with
  | nil => simp [Main2.import_to_anilist_then_export]
  | cons m rest ih =>
    simp only [Main2.import_to_anilist_then_export]
    by_cases h1 : optTruthy m.links.getAl
    · simpa [h1] using ih.cons m
    · by_cases h2 : optTruthy m.links.getMal
      · simp only [h1, h2, Bool.false_eq_true, if_false, if_true]
        refine List.Perm.trans ?_ (ih.cons m)
        rw [List.append_assoc]
        exact List.Perm.trans List.perm_middle
          (by rw [List.append_assoc]; exact List.Perm.refl _)
      · simp only [h1, h2, Bool.false_eq_true, if_false]
        refine List.Perm.trans ?_ (ih.cons m)
        exact @List.perm_middle _ m
          ((Main2.import_to_anilist_then_export rest).1 ++
            (Main2.import_to_anilist_then_export rest).2.1)
          ((Main2.import_to_anilist_then_export rest).2.2)

/-- C2: the three-way split at the head of `import_to_anilist_then_export`
(src/main2.py lines 717–732) is total, disjoint and order-preserving: the
three output sequences are exactly the sublists of the input selected by,
in this fixed priority order, a truthy Id-B (AniList link), else a truthy
Id-A (MAL link), else neither — `List.filter` preserves relative order, the
three filter predicates are pairwise exclusive and jointly exhaustive, and
the concatenation of the three outputs is a permutation of the input, so
every input item lands in exactly one output sequence. -/
theorem C2_partition_three_way_split (l : List Manga) :
    Main2.import_to_anilist_then_export l =
      (l.filter fun m => optTruthy m.links.getAl,
       l.filter fun m => !optTruthy m.links.getAl && optTruthy m.links.getMal,
       l.filter fun m => !optTruthy m.links.getAl && !optTruthy m.links.getMal)
    ∧ ((Main2.import_to_anilist_then_export l).1 ++
        (Main2.import_to_anilist_then_export l).2.1 ++
        (Main2.import_to_anilist_then_export l).2.2).Perm l
    ∧ (∀ m : Manga,
        (optTruthy m.links.getAl
          && !(!optTruthy m.links.getAl && optTruthy m.links.getMal)
          && !(!optTruthy m.links.getAl && !optTruthy m.links.getMal))
        || (!optTruthy m.links.getAl && optTruthy m.links.getMal
          && !(!optTruthy m.links.getAl && !optTruthy m.links.getMal))
        || (!optTruthy m.links.getAl && !optTruthy m.links.getMal) = true) :=
  ⟨import_split_filter l, import_split_perm l, by
    intro m
    cases optTruthy m.links.getAl <;> cases optTruthy m.links.getMal <;> rfl⟩

theorem manga_status_resolved (s : String) :
    (pyDictGet Main2.manga_status_map s).getD "Reading" = "Reading"
    ∨ (pyDictGet Main2.manga_status_map s).getD "Reading" = "Completed"
    ∨ (pyDictGet Main2.manga_status_map s).getD "Reading" = "On-Hold"
    ∨ (pyDictGet Main2.manga_status_map s).getD "Reading" = "Dropped"
    ∨ (pyDictGet Main2.manga_status_map s).getD "Reading" = "Plan to Read" := by
  simp only [Main2.manga_status_map, MDex.pyDictGet, List.foldl]
  split_ifs <;> simp

theorem xml_foldl_inv (l : List Manga) :
    ∀ acc : Main2.XmlState,
      acc.exported = acc.total_reading + acc.total_completed + acc.total_onhold
        + acc.total_dropped + acc.total_plantoread →
      acc.entries.length = acc.exported →
      (l.foldl Main2.xmlStep acc).exported =
          (l.foldl Main2.xmlStep acc).total_reading
          + (l.foldl Main2.xmlStep acc).total_completed
          + (l.foldl Main2.xmlStep acc).total_onhold
          + (l.foldl Main2.xmlStep acc).total_dropped
          + (l.foldl Main2.xmlStep acc).total_plantoread
        ∧ (l.foldl Main2.xmlStep acc).entries.length =
            (l.foldl Main2.xmlStep acc).exported := by
  induction l with
  | nil => intro acc h1 h2; exact ⟨h1, h2⟩
  | cons m rest ih =>
    intro acc h1 h2
    rw [List.foldl_cons]
    by_cases hm : optTruthy m.links.getMal
    · rcases manga_status_resolved (Main2.resolveReadingStatus m) with h5 | h5 | h5 | h5 | h5 <;>
        · apply ih
          · simp [Main2.xmlStep, hm, h5]; omega
          · simp [Main2.xmlStep, hm, h5]; omega
    · apply ih <;> simp [Main2.xmlStep, hm, h1, h2]

/-- C4: for every input item list (the empty list included), the XML
export's `user_total_manga` count (the `exported` counter of
`export_manga_list_to_xml`, src/main2.py lines 343–427) equals the sum of
the five per-status totals, and both equal the number of `<manga>` entry
elements emitted in the document. -/
theorem C4_xml_totals_consistent (l : List Manga) :
    (Main2.export_manga_list_to_xml l).exported =
        (Main2.export_manga_list_to_xml l).total_reading
        + (Main2.export_manga_list_to_xml l).total_completed
        + (Main2.export_manga_list_to_xml l).total_onhold
        + (Main2.export_manga_list_to_xml l).total_dropped
        + (Main2.export_manga_list_to_xml l).total_plantoread
    ∧ (Main2.export_manga_list_to_xml l).exported =
        (Main2.export_manga_list_to_xml l).entries.length := by
  have h := xml_foldl_inv l Main2.initXmlState rfl rfl
  exact ⟨h.1, h.2.symm⟩

theorem xml_foldl_unlinked (l : List Manga) :
    ∀ acc : Main2.XmlState,
      (l.foldl Main2.xmlStep acc).unlinked =
        acc.unlinked ++ l.filter fun m => !optTruthy m.links.getMal := by
  induction l with
  | nil => intro acc; simp
  | cons m rest ih =>
    intro acc
    rw [List.foldl_cons, List.filter_cons]
    by_cases hm : optTruthy m.links.getMal
    · simp [Main2.xmlStep, hm, ih, List.append_assoc]
      split_ifs <;> rfl
    · simp [Main2.xmlStep, hm, ih, List.append_assoc]

theorem xml_foldl_entries (l : List Manga) :
    ∀ acc : Main2.XmlState,
      (l.foldl Main2.xmlStep acc).entries =
        acc.entries ++
          ((l.filter fun m => optTruthy m.links.getMal).map fun m =>
            Main2.mkEntry m
              ((pyDictGet Main2.manga_status_map (Main2.resolveReadingStatus m)).getD
                "Reading")) := by
  induction l with
  | nil => intro acc; simp
  | cons m rest ih =>
    intro acc
    rw [List.foldl_cons, List.filter_cons]
    by_cases hm : optTruthy m.links.getMal
    · simp [Main2.xmlStep, hm, ih, List.append_assoc]
      split_ifs <;> rfl
    · simp [Main2.xmlStep, hm, ih, List.append_assoc]

/-- C7: for every input item list, an item lacking the primary external
identifier (a MAL link that is absent, not a dict entry, or falsy) never
appears as a `<manga>` entry element of the exported XML — the emitted
entries are exactly the image of the items with a truthy MAL link, in input
order — and every such item is placed, exactly once and in input order,
into the `unlinked` side partition, which is handed in full to the
secondary sink (`sync_to_anilist` on answer "y", the unlinked CSV export on
any other answer) by the routing of src/main2.py lines 447–455. -/
theorem C7_unlisted_side_partition (l : List Manga) :
    (Main2.export_manga_list_to_xml l).unlinked =
        (l.filter fun m => !optTruthy m.links.getMal)
    ∧ (Main2.export_manga_list_to_xml l).entries =
        ((l.filter fun m => optTruthy m.links.getMal).map fun m =>
          Main2.mkEntry m
            ((pyDictGet Main2.manga_status_map (Main2.resolveReadingStatus m)).getD
              "Reading"))
    ∧ (∀ answer : String,
        (Main2.routeUnlinked answer l).2 =
          (l.filter fun m => !optTruthy m.links.getMal)
        ∧ (answer = "y" → (Main2.routeUnlinked answer l).1 = .anilist)
        ∧ (answer ≠ "y" → (Main2.routeUnlinked answer l).1 = .csv)) := by
  have hu : (Main2.export_manga_list_to_xml l).unlinked =
      (l.filter fun m => !optTruthy m.links.getMal) := by
    unfold Main2.export_manga_list_to_xml
    rw [xml_foldl_unlinked]
    rfl
  refine ⟨hu, ?_, ?_⟩
  · unfold Main2.export_manga_list_to_xml
    rw [xml_foldl_entries]
    rfl
  · intro answer
    refine ⟨?_, fun hy => ?_, fun hy => ?_⟩
    · unfold Main2.routeUnlinked
      split <;> simpa using hu
    · simp [Main2.routeUnlinked, hy]
    · have : (answer == "y") = false := by simpa using hy
      simp [Main2.routeUnlinked, this]

/-- C5 counterexample: in the claim's scenario (library
`{"id1": "reading", "id2": "completed"}`, no read history for either item),
enrichment leaves `user_rating` absent on both items — the rating merge of
src/main2.py lines 223–229 runs only in the loop over `futures`, which
items with no read chapters never enter (lines 191–201) — so the claim's
"rating 0" is false: no item of the run has rating 0. -/
theorem C5_counterexample_rating_unset :
    (Main2.get_manga_info Scen.apiC5 ["id1", "id2"] Scen.smC5).map Manga.user_rating
      = [none, none]
    ∧ ¬ (∀ m ∈ Main2.get_manga_info Scen.apiC5 ["id1", "id2"] Scen.smC5,
          m.user_rating = some 0) := by
  decide

/-- C5 as amended: in the scenario (library
`{"id1": "reading", "id2": "completed"}`, no read history), enrichment gives
both items progress chapter 0 and progress volume 0 and leaves the rating
key unset (absent, not 0 — downstream sinks default it), and attaches each
item's reading status; partitioning the enriched items, with id1 carrying
Id-A (MAL) only and id2 carrying neither identifier, yields
`hasIdB = []`, `hasIdAOnly = [id1]`, `hasNeither = [id2]`. -/
theorem C5_scenario_enrich_then_partition :
    Main2.get_manga_info Scen.apiC5 ["id1", "id2"] Scen.smC5 =
      [{ id := "id1", links := .dict none (some "100"), title := [],
         attrReadingStatus := none, reading_status := some "reading",
         read_chapter := some 0, read_volume := some 0, user_rating := none },
       { id := "id2", links := .dict none none, title := [],
         attrReadingStatus := none, reading_status := some "completed",
         read_chapter := some 0, read_volume := some 0, user_rating := none }]
    ∧ Main2.import_to_anilist_then_export
        (Main2.get_manga_info Scen.apiC5 ["id1", "id2"] Scen.smC5) =
      ([],
       [{ id := "id1", links := .dict none (some "100"), title := [],
          attrReadingStatus := none, reading_status := some "reading",
          read_chapter := some 0, read_volume := some 0, user_rating := none }],
       [{ id := "id2", links := .dict none none, title := [],
          attrReadingStatus := none, reading_status := some "completed",
          read_chapter := some 0, read_volume := some 0, user_rating := none }]) := by
  decide

theorem pyMaxBy_key {α : Type} (f : α → ℚ) :
    ∀ (l : List α) (x : α), f (pyMaxBy f x l) = (l.map f).foldl max (f x) := by
  intro l
  induction l with
  | nil => intro x; rfl
  | cons y ys ih =>
    intro x
    simp only [MDex.pyMaxBy, List.map_cons, List.foldl_cons]
    rw [ih]
    congr 1
    by_cases h : f x < f y
    · simp [h, max_eq_right h.le]
    · simp [h, max_eq_left (not_lt.mp h)]

/-- C6 counterexample: a kept chapter list consisting of one chapter whose
chapter attribute parses to the negative float -1 (the string "-1").  The
maximum parsed chapter number over the kept chapters is -1, but the code
(src/main2.py line 218) clamps with `max(..., 0)` and stores 0, so the
furthest-read chapter is not the maximum parsed chapter number, refuting
the claim as stated. -/
theorem C6_counterexample_negative_chapter :
    (Main2.enrichOne Scen.apiC6 [] Scen.mangaC6).read_chapter = some 0
    ∧ MDex.maxParsedChapter
        (Main2.fetch_chapter_list Scen.apiC6 "m1" (Scen.apiC6.readMap "m1")) = -1
    ∧ (Main2.enrichOne Scen.apiC6 [] Scen.mangaC6).read_chapter ≠
        some (MDex.maxParsedChapter
          (Main2.fetch_chapter_list Scen.apiC6 "m1" (Scen.apiC6.readMap "m1"))) := by
  decide

/-- C6 as amended: for every non-empty filtered chapter list, the enriched
item's furthest-read chapter number is the maximum of 0 and the maximum
parsed chapter number over all kept chapters (absent or unparsable chapter
numbers counting as 0; the `max(..., 0)` clamp of src/main2.py lines
218–219 only matters when every parsed value is negative), and its
furthest-read volume number is, independently, the maximum of 0 and the
maximum parsed volume number over all kept chapters — the two maxima are
computed by separate `max(chapters, key=...)` passes and need not come from
the same chapter element. -/
theorem C6_progress_is_independent_maxima (api : Api) (sm : List (String × String))
    (m : Manga) (c : ChapterRaw) (cs : List ChapterRaw)
    (hread : (api.readMap m.id).isEmpty = false)
    (hch : Main2.fetch_chapter_list api m.id (api.readMap m.id) = c :: cs) :
    (Main2.enrichOne api sm m).read_chapter =
        some (max 0 (MDex.maxParsedChapter (c :: cs)))
    ∧ (Main2.enrichOne api sm m).read_volume =
        some (max 0 (MDex.maxParsedVolume (c :: cs))) := by
  have hid : (Main2.attachStatus sm m).id = m.id := attachStatus_id sm m
  unfold Main2.enrichOne Main2.attachProgress
  rw [hid]
  dsimp only
  rw [hread, hch]
  constructor <;>
    simp [pyMaxBy_key, MDex.maxParsedChapter, MDex.maxParsedVolume, max_comm]

/-- Witness for C6 at a synthetic two-chapter list where the maximum
chapter number (5, from chapter ch1) and the maximum volume number (3, from
chapter ch2) come from different chapter elements. -/
theorem C6_progress_is_independent_maxima_witness :
    (Main2.enrichOne Scen.apiC6w [] Scen.mangaC6w).read_chapter = some 5
    ∧ (Main2.enrichOne Scen.apiC6w [] Scen.mangaC6w).read_volume = some 3 := by
  have h := C6_progress_is_independent_maxima Scen.apiC6w [] Scen.mangaC6w
    { ctype := "chapter", id := "ch1", chapter := some 5, volume := some 1 }
    [{ ctype := "chapter", id := "ch2", chapter := some 2, volume := some 3 }]
    (by decide) (by decide)
  refine ⟨?_, ?_⟩
  · rw [h.1]; decide
  · rw [h.2]; decide

theorem mapped_status_of_eq_spec (rs : Option String) :
    Main2.mapped_status_of rs = MDex.specStatusTable rs := by
  cases rs with
  | none => rfl
  | some s =>
    simp only [Main2.mapped_status_of, Main2.anilist_status_map, MDex.pyDictGet,
      List.foldl, MDex.specStatusTable]
    rcases eq_or_ne s "reading" with h1 | h1
    · subst h1; simp
    rcases eq_or_ne s "completed" with h2 | h2
    · subst h2; simp
    rcases eq_or_ne s "on_hold" with h3 | h3
    · subst h3; simp
    rcases eq_or_ne s "dropped" with h4 | h4
    · subst h4; simp
    rcases eq_or_ne s "plan_to_read" with h5 | h5
    · subst h5; simp
    rcases eq_or_ne s "re_reading" with h6 | h6
    · subst h6; simp
    simp [beq_iff_eq, h1, h2, h3, h4, h5, h6,
      Ne.symm h1, Ne.symm h2, Ne.symm h3, Ne.symm h4, Ne.symm h5, Ne.symm h6]

/-- C8: for every item carrying Id-B (a truthy AniList link that parses as
an integer), the remote-import sink `sync_to_anilist` (src/main2.py lines
489–543) builds a mutation payload whose `mediaId` is the integer parse of
Id-B, whose `status` is the image of the item's reading status under the
fixed 6-to-5 table (reading→CURRENT, completed→COMPLETED, on_hold→PAUSED,
dropped→DROPPED, plan_to_read→PLANNING, re_reading→CURRENT) with default
CURRENT for an unmapped or absent status, whose `score` is the item's
numeric rating exactly when one is present (an absent rating leaves the
`score` key out of the payload, never null), and whose `progress` and
`progressVolumes` are the integer truncations of the furthest-read chapter
and volume (absent progress defaulting to 0). -/
theorem C8_anilist_mutation_payload (m : Manga) (al : String) (n : Int)
    (hal : m.links.getAl = some al) (hne : al.isEmpty = false)
    (hn : pyParseInt al = some n) :
    Main2.sync_to_anilist_payload m =
      some { mediaId := n,
             status := MDex.specStatusTable m.reading_status,
             score := m.user_rating,
             progress := some (pyInt ((m.read_chapter).getD 0)),
             progressVolumes := some (pyInt ((m.read_volume).getD 0)) } := by
  unfold Main2.sync_to_anilist_payload
  rw [hal]
  dsimp only
  rw [hne]
  simp only [Bool.false_eq_true, if_false, hn, mapped_status_of_eq_spec]

/-- Witness for C8: an item with AniList id "123", status on_hold, rating
7.5, furthest-read chapter 12.5 and volume 2 produces the payload
(mediaId 123, status PAUSED, score 7.5, progress 12, progressVolumes 2). -/
theorem C8_anilist_mutation_payload_witness :
    Main2.sync_to_anilist_payload Scen.mangaC8 =
      some { mediaId := 123, status := "PAUSED", score := some (mkRat 15 2),
             progress := some 12, progressVolumes := some 2 } := by
  have h := C8_anilist_mutation_payload Scen.mangaC8 "123" 123 rfl rfl (by decide)
  rw [h]
  decide

/-- C9: for every request, a network failure (connection error or timeout)
is retried with a fixed 10-second delay between attempts, up to a cap of 6
total attempts; after the 6th failed attempt the network failure is
propagated to the caller (6 physical requests, 5 sleeps of 10 seconds).  A
non-401 HTTP error status is never retried: it is surfaced immediately
after a single physical request with no sleep.  Both program variants
(`request_with_retry` of src/main2.py and of src/main.py) are covered. -/
theorem C9_network_retry_and_http_no_retry (url : String) (auth : Option String)
    (creds : Option (String × String)) (loginResult : Option String)
    (http : Nat → HttpOutcome) :
    ((∀ k, k < 6 → http k = .netErr) →
      Main2.request_with_retry url auth creds loginResult http =
        (.netFailure,
         { calls := [auth, auth, auth, auth, auth, auth], logins := 0,
           sleeps := [10, 10, 10, 10, 10], tokens := none })
      ∧ Main.request_with_retry http = (.netFailure, 6, [10, 10, 10, 10, 10]))
    ∧ (∀ s : Nat, http 0 = .resp s → 400 ≤ s → s ≠ 401 →
        Main2.request_with_retry url auth creds loginResult http =
          (.httpError s, { calls := [auth], logins := 0, sleeps := [], tokens := none })
        ∧ Main.request_with_retry http = (.httpError s, 1, [])) := by
  constructor
  · intro h
    constructor
    · simp [Main2.request_with_retry, Main2.request_with_retry_loop,
        h 0 (by omega), h 1 (by omega), h 2 (by omega), h 3 (by omega),
        h 4 (by omega), h 5 (by omega)]
    · simp [Main.request_with_retry, Main.request_with_retry_loop,
        h 0 (by omega), h 1 (by omega), h 2 (by omega), h 3 (by omega),
        h 4 (by omega), h 5 (by omega)]
  · intro s h0 h400 h401
    have hb : (s == 401) = false := by simp [h401]
    constructor
    · simp [Main2.request_with_retry, Main2.request_with_retry_loop, h0, hb, h400]
    · simp [Main.request_with_retry, Main.request_with_retry_loop, h0, h400]

/-- Witness for C9: the all-network-failures oracle exhausts the 6 attempts
with 5 sleeps in both variants, and an immediate HTTP 500 is surfaced after
one attempt in both variants. -/
theorem C9_network_retry_witness :
    (Main2.request_with_retry "https://api.mangadex.org/manga" none none none
        (fun _ => .netErr) =
      (.netFailure,
       { calls := [none, none, none, none, none, none], logins := 0,
         sleeps := [10, 10, 10, 10, 10], tokens := none })
      ∧ Main.request_with_retry (fun _ => .netErr) = (.netFailure, 6, [10, 10, 10, 10, 10]))
    ∧ (Main2.request_with_retry "https://api.mangadex.org/manga" none none none
        (fun _ => .resp 500) =
 (.httpError 500, { calls := [none], logins := 0, sleeps := [], tokens := none })
      ∧ Main.request_with_retry (fun _ => .resp 500) = (.httpError 500, 1, [])) :=
  ⟨(C9_network_retry_and_http_no_retry "https://api.mangadex.org/manga" none none none
      (fun _ => .netErr)).1 (fun _ _ => rfl),
   (C9_network_retry_and_http_no_retry "https://api.mangadex.org/manga" none none none
      (fun _ => .resp 500)).2 500 rfl (by omega) (by omega)⟩

/-- C3 code evaluation: a 401 response to a request aimed at the login
endpoint itself (`https://api.mangadex.org/auth/login`), with stored
credentials, makes `request_with_retry` of src/main2.py re-authenticate
anyway (one login handshake is run, the stored token is replaced and the
call is retried with the refreshed header), because line 681 tests for the
literal text "LOGIN_ENDPOINT" inside the URL — which no real URL contains —
rather than comparing against the `LOGIN_ENDPOINT` constant. -/
theorem C3_login_endpoint_reauth_evaluation :
    Main2.request_with_retry "https://api.mangadex.org/auth/login"
        (some "Bearer old") (some ("user", "pass")) (some "newtok")
        (fun k => if k == 0 then .resp 401 else .resp 200) =
      (.success 200,
       { calls := [some "Bearer old", some "Bearer newtok"], logins := 1,
         sleeps := [], tokens := some "newtok" })
    ∧ strContains "https://api.mangadex.org/auth/login" "LOGIN_ENDPOINT" = false := by
  decide

theorem special_tables_eq : Main.special_table = Main2.special_table := rfl

theorem iso_map_tables_eq : Main.iso_map_table = Main2.iso_map_table := rfl

/-- C10: the language-code lookups `iso6391_to_language` of src/main.py and
src/main2.py are extensionally equal — their two-tier tables are identical
entry for entry — the irregular/compound-code table is consulted before the
general ISO table (so "zh" resolves to "Simplified Chinese", not the
general table's "Chinese"), and a code present in neither table is returned
unchanged. -/
theorem C10_language_lookup_equivalence :
    (∀ code : String, Main.iso6391_to_language code = Main2.iso6391_to_language code)
    ∧ Main.iso6391_to_language "zh" = "Simplified Chinese"
    ∧ Main2.iso6391_to_language "zh" = "Simplified Chinese"
    ∧ pyDictGet Main.iso_map_table "zh" = some "Chinese"
    ∧ (∀ code : String,
        pyDictGet Main.special_table code = none →
        pyDictGet Main.iso_map_table code = none →
        Main.iso6391_to_language code = code) := by
  refine ⟨fun code => ?_, by decide, by decide, by decide, fun code h1 h2 => ?_⟩
  · simp only [Main.iso6391_to_language, Main2.iso6391_to_language,
      special_tables_eq, iso_map_tables_eq]
  · simp only [Main.iso6391_to_language, h1, h2]

/-- Witness for C10 at the code "xx", which is in neither table. -/
theorem C10_language_lookup_equivalence_witness :
    Main.iso6391_to_language "xx" = "xx" :=
  C10_language_lookup_equivalence.2.2.2.2 "xx" (by decide) (by decide)

/-- Witness for C7 at a one-item list whose item lacks a MAL link: the item
is routed, in full, to the CSV sink on answer "n" and to the AniList sink
on answer "y". -/
theorem C7_unlisted_side_partition_witness :
    (Main2.routeUnlinked "n" [Scen.mangaId2]).2 = [Scen.mangaId2]
    ∧ (Main2.routeUnlinked "n" [Scen.mangaId2]).1 = .csv
    ∧ (Main2.routeUnlinked "y" [Scen.mangaId2]).1 = .anilist := by
  refine ⟨?_, ?_, ?_⟩
  · rw [((C7_unlisted_side_partition [Scen.mangaId2]).2.2 "n").1]
    decide
  · exact ((C7_unlisted_side_partition [Scen.mangaId2]).2.2 "n").2.2 (by decide)
  · exact ((C7_unlisted_side_partition [Scen.mangaId2]).2.2 "y").2.1 rfl
